import Mathlib

/-!
Shallow embedding of `payload_designer/components.py`.

Numeric values are modelled over `ℝ`.  Python `None`-able parameters become
`Option ℝ` fields (constructor defaults mirror the `=None` keyword defaults).
A Python `assert p is not None, "msg"` or `raise ValueError("msg")` becomes an
`Except.error "msg"` result; successful returns become `Except.ok`.

Each derivation method is embedded as a `*_run` function returning the pair
`(result, post-state)`.  The source methods contain no field assignments, so
the post-state component is the unchanged input state; state threading is kept
explicit so that frame properties can be stated.

Array-valued inputs: among the claims only `VPHGrism.get_angle_out` is
exercised with vector arguments (incidence angles and wavelengths), so its
`a_in` and `l` fields are embedded as `Option (List ℝ)` and the remaining
parameters in the scalar shape the claims use.  numpy's broadcasting of the
column vector `a_in` (k times 1) against the row `matmul(v, transpose(l))`
(1 times m) yields the k times m grid whose (i, j) entry depends only on
`a_in[i]` and `l[j]`; that entry function is `vphEntry` below and the grid is
the nested map.  numpy's `arcsin` yields NaN outside [-1, 1] where Mathlib's
`Real.arcsin` clamps; all claims whose truth depends on arcsin values carry
explicit non-total-internal-reflection hypotheses under which the two agree.
-/

/-- `np.radians`: degrees to radians, multiplication by pi / 180. -/
noncomputable def npRadians (x : ℝ) : ℝ := x * (Real.pi / 180)

/-- `np.degrees`: radians to degrees, multiplication by 180 / pi. -/
noncomputable def npDegrees (x : ℝ) : ℝ := x * 180 / Real.pi

/-- Modelled from the spec: `payload_designer.libs.physlib.snell_angle_2` is
not under src (only its call sites in `components.py` are).  The spec states
the contract: given an angle of incidence (radians) and two refractive indices
(incident medium, transmission medium), return the refraction angle satisfying
n1 * sin t1 = n2 * sin t2, i.e. t2 = arcsin (n1 * sin t1 / n2). -/
noncomputable def snell_angle_2 (angle_1 n_1 n_2 : ℝ) : ℝ :=
  Real.arcsin (n_1 * Real.sin angle_1 / n_2)

/-- Entry (i, j) of the grid computed by `VPHGrism.get_angle_out`, as a
function of the i-th incidence angle `ai` (degrees) and the j-th wavelength
`lj` (nm), translated statement-by-statement from the source body
(lines 462-482 of `components.py`). -/
noncomputable def vphEntry (ai lj n1 n2 n3 m a v : ℝ) : ℝ :=
  let l := lj * (1 / 10 ^ 9)
  let a_in := npRadians ai
  let aR := npRadians a
  let angle_1 := a_in + aR
  let angle_2 := snell_angle_2 angle_1 n1 n2
  let angle_3 := aR - angle_2
  let angle_4 := snell_angle_2 angle_3 n2 n3
  let angle_5 := angle_4
  let angle_6 := Real.arcsin (Real.sin angle_5 - m * (v * l))
  let angle_7 := angle_6
  let angle_8 := snell_angle_2 angle_7 n3 n2
  let angle_9 := angle_8 - aR
  let angle_10 := snell_angle_2 angle_9 n2 n1
  npDegrees (angle_10 + aR)

/-- The nine-step chain exactly as the spec words it (section 4.2, steps
(a)-(i)): (a) add apex angle to incidence angle; (b) refract n1 to n2;
(c) subtract from apex angle; (d) refract n2 to n3; (e) grating equation
sin t = sin t_prev - m * v * lambda; (f) refract n3 to n2; (g) subtract apex
angle; (h) refract n2 to n1; (i) add apex angle; with degrees-to-radians at
entry, radians-to-degrees at exit, and wavelength nm-to-m before the grating
equation. -/
noncomputable def specGrismChain (ai lj n1 n2 n3 m a v : ℝ) : ℝ :=
  let lam := lj * (1 / 10 ^ 9)
  let t0 := npRadians ai
  let aR := npRadians a
  let s1 := t0 + aR
  let s2 := snell_angle_2 s1 n1 n2
  let s3 := aR - s2
  let s4 := snell_angle_2 s3 n2 n3
  let s5 := Real.arcsin (Real.sin s4 - m * v * lam)
  let s6 := snell_angle_2 s5 n3 n2
  let s7 := s6 - aR
  let s8 := snell_angle_2 s7 n2 n1
  npDegrees (s8 + aR)

/-- `ThickLens` parameter bag (constructor defaults all `None`). -/
structure ThickLens where
  h1 : Option ℝ := none
  h2 : Option ℝ := none
  f_thick : Option ℝ := none
  n : Option ℝ := none
  d : Option ℝ := none
  R1 : Option ℝ := none
  R2 : Option ℝ := none
  s_i : Option ℝ := none
  s_o : Option ℝ := none
  a1 : Option ℝ := none
  a2 : Option ℝ := none
  x1 : Option ℝ := none
  x2 : Option ℝ := none

/-- `Slit` parameter bag. -/
structure Slit where
  w_i : Option ℝ := none
  m : Option ℝ := none
  f : Option ℝ := none
  w_s : Option ℝ := none
  l_s : Option ℝ := none
  w_o : Option ℝ := none
  w_d : Option ℝ := none
  fov_h : Option ℝ := none
  fov_v : Option ℝ := none

/-- `Foreoptics` parameter bag. -/
structure Foreoptics where
  ds_i : Option ℝ := none
  ds_o : Option ℝ := none
  n : Option ℝ := none
  dm_a : Option ℝ := none
  a_in_max : Option ℝ := none
  na : Option ℝ := none
  b : Option ℝ := none
  g : Option ℝ := none
  s : Option ℝ := none

/-- `VPHGrism` parameter bag.  `a_in` and `l` are the two array-valued
parameters the claims exercise. -/
structure VPHGrism where
  d : Option ℝ := none
  t : Option ℝ := none
  a_in : Option (List ℝ) := none
  a_out : Option ℝ := none
  R : Option ℝ := none
  l : Option (List ℝ) := none
  l_g : Option ℝ := none
  a : Option ℝ := none
  m : Option ℝ := none
  n_1 : Option ℝ := none
  n_2 : Option ℝ := none
  n_3 : Option ℝ := none
  v : Option ℝ := none
  dl : Option ℝ := none
  N : Option ℝ := none

/-- `ThinLens` parameter bag.  The transmittance LUT field `T` carries no
behaviour at this layer (opaque collaborator) and no claim touches it, so it
is omitted. -/
structure ThinLens where
  D : Option ℝ := none
  M : Option ℝ := none
  a_in : Option ℝ := none
  a_out : Option ℝ := none
  d_i : Option ℝ := none
  d_o : Option ℝ := none
  f : Option ℝ := none
  h_i : Option ℝ := none
  h_o : Option ℝ := none

/-- `AchromDoublet` parameter bag. -/
structure AchromDoublet where
  f_1 : Option ℝ := none
  f_2 : Option ℝ := none
  f_eq : Option ℝ := none
  V_1 : Option ℝ := none
  V_2 : Option ℝ := none

/-- `ThickLens.get_focal_length` (lines 66-80): asserts n, R1, R2, d in that
order, then returns (n R1 R2) / ((R2 - R1)(n - 1) n + (n - 1)^2 d). -/
noncomputable def ThickLens.get_focal_length_run (self : ThickLens) :
    Except String ℝ × ThickLens :=
  (match self.n, self.R1, self.R2, self.d with
   | some n, some R1, some R2, some d =>
     .ok ((n * R1 * R2) / ((R2 - R1) * (n - 1) * n + (n - 1) ^ 2 * d))
   | none, _, _, _ => .error ("n is not set.")
   | _, none, _, _ => .error ("R1 is not set.")
   | _, _, none, _ => .error ("R2 is not set.")
   | _, _, _, none => .error ("d is not set."), self)

/-- `ThickLens.get_principal_planes` (lines 82-98): asserts d, n, R1, R2,
f_thick in that order, returns the pair (h1, h2). -/
noncomputable def ThickLens.get_principal_planes_run (self : ThickLens) :
    Except String (ℝ × ℝ) × ThickLens :=
  (match self.d, self.n, self.R1, self.R2, self.f_thick with
   | some d, some n, some R1, some R2, some f_thick =>
     .ok (-(f_thick * (n - 1) * d) / (R2 * n), -(f_thick * (n - 1) * d) / (R1 * n))
   | none, _, _, _, _ => .error ("d is not set.")
   | _, none, _, _, _ => .error ("n is not set.")
   | _, _, none, _, _ => .error ("R1 is not set.")
   | _, _, _, none, _ => .error ("R2 is not set.")
   | _, _, _, _, none => .error ("f_thick is not set."), self)

/-- `ThickLens.get_focuser_image_distance` (lines 100-111). -/
def ThickLens.get_focuser_image_distance_run (self : ThickLens) :
    Except String ℝ × ThickLens :=
  (match self.f_thick with
   | some f_thick => .ok f_thick
   | none => .error ("f_thick is not set."), self)

/-- `ThickLens.get_collimator_object_distance` (lines 113-124). -/
def ThickLens.get_collimator_object_distance_run (self : ThickLens) :
    Except String ℝ × ThickLens :=
  (match self.f_thick with
   | some f_thick => .ok f_thick
   | none => .error ("f_thick is not set."), self)

/-- `ThickLens.get_focuser_image_height` (lines 126-138): asserts f_thick
then a1; x2 = radians(a1) * f_thick. -/
noncomputable def ThickLens.get_focuser_image_height_run (self : ThickLens) :
    Except String ℝ × ThickLens :=
  (match self.f_thick, self.a1 with
   | some f_thick, some a1 => .ok (npRadians a1 * f_thick)
   | none, _ => .error ("f_thick is not set.")
   | _, none => .error ("a1 is not set."), self)

/-- `ThickLens.get_collimator_emergent_ray_angle` (lines 140-152): asserts x1
then f_thick; returns degrees(-x1 / f_thick). -/
noncomputable def ThickLens.get_collimator_emergent_ray_angle_run (self : ThickLens) :
    Except String ℝ × ThickLens :=
  (match self.x1, self.f_thick with
   | some x1, some f_thick => .ok (npDegrees (-x1 / f_thick))
   | none, _ => .error ("x1 is not set.")
   | _, none => .error ("f_thick is not set."), self)

/-- `Slit.get_horizontal_field_of_view` (lines 180-191): asserts l_s then f;
fov = 2 arctan (l_s / (2 f)), returned as fov * 180 / pi. -/
noncomputable def Slit.get_horizontal_field_of_view_run (self : Slit) :
    Except String ℝ × Slit :=
  (match self.l_s, self.f with
   | some l_s, some f => .ok (2 * Real.arctan (l_s / (2 * f)) * 180 / Real.pi)
   | none, _ => .error ("l_s is not set.")
   | _, none => .error ("f is not set."), self)

/-- `Slit.get_vertical_field_of_view` (lines 193-204): asserts w_s then f. -/
noncomputable def Slit.get_vertical_field_of_view_run (self : Slit) :
    Except String ℝ × Slit :=
  (match self.w_s, self.f with
   | some w_s, some f => .ok (2 * Real.arctan (w_s / (2 * f)) * 180 / Real.pi)
   | none, _ => .error ("w_s is not set.")
   | _, none => .error ("f is not set."), self)

/-- `Slit.get_image_width` (lines 206-218): asserts m, w_s, w_o;
w_i = sqrt (m^2 w_s^2 + w_o^2). -/
noncomputable def Slit.get_image_width_run (self : Slit) :
    Except String ℝ × Slit :=
  (match self.m, self.w_s, self.w_o with
   | some m, some w_s, some w_o => .ok (Real.sqrt (m ^ 2 * w_s ^ 2 + w_o ^ 2))
   | none, _, _ => .error ("m is not set.")
   | _, none, _ => .error ("w_s is not set.")
   | _, _, none => .error ("w_o is not set."), self)

/-- `Slit.get_slit_width` (lines 220-231): asserts m then w_d; w_s = w_d / m. -/
noncomputable def Slit.get_slit_width_run (self : Slit) :
    Except String ℝ × Slit :=
  (match self.m, self.w_d with
   | some m, some w_d => .ok (w_d / m)
   | none, _ => .error ("m is not set.")
   | _, none => .error ("w_d is not set."), self)

/-- `Foreoptics.get_aperture_diameter` (lines 271-286): asserts ds_i, then
tries n (ds_i / n) before na (2 ds_i na), else ValueError. -/
noncomputable def Foreoptics.get_aperture_diameter_run (self : Foreoptics) :
    Except String ℝ × Foreoptics :=
  (match self.ds_i with
   | none => .error ("ds_i is not set.")
   | some ds_i =>
     match self.n with
     | some n => .ok (ds_i / n)
     | none =>
       match self.na with
       | some na => .ok (2 * (ds_i * na))
       | none => .error ("n or na must be set."), self)

/-- `Foreoptics.get_magnification` (lines 288-299): asserts ds_i then ds_o;
m = ds_i / ds_o. -/
noncomputable def Foreoptics.get_magnification_run (self : Foreoptics) :
    Except String ℝ × Foreoptics :=
  (match self.ds_i, self.ds_o with
   | some ds_i, some ds_o => .ok (ds_i / ds_o)
   | none, _ => .error ("ds_i is not set.")
   | _, none => .error ("ds_o is not set."), self)

/-- `Foreoptics.get_f_number` (lines 301-314): na first (1 / (2 na)), else
ds_i and dm_a (ds_i / dm_a), else ValueError. -/
noncomputable def Foreoptics.get_f_number_run (self : Foreoptics) :
    Except String ℝ × Foreoptics :=
  (match self.na with
   | some na => .ok (1 / (2 * na))
   | none =>
     match self.ds_i, self.dm_a with
     | some ds_i, some dm_a => .ok (ds_i / dm_a)
     | _, _ => .error ("ds_i and dm_a or na must be set."), self)

/-- `Foreoptics.get_effective_focal_length` (lines 316-327): asserts ds_i
then ds_o; efl = (ds_o + ds_i) / (ds_o * ds_i). -/
noncomputable def Foreoptics.get_effective_focal_length_run (self : Foreoptics) :
    Except String ℝ × Foreoptics :=
  (match self.ds_i, self.ds_o with
   | some ds_i, some ds_o => .ok ((ds_o + ds_i) / (ds_o * ds_i))
   | none, _ => .error ("ds_i is not set.")
   | _, none => .error ("ds_o is not set."), self)

/-- `Foreoptics.get_numerical_aperture` (lines 329-347).  The source computes
`a_in_max = np.radians(self.a_in_max)` unconditionally before any presence
check: when the field is absent this raises a TypeError (np.radians does not
accept None); when it is present the result is a float, never None, so the
first branch of the if is always taken and both the `n` branch and the
ValueError branch are unreachable in the source.  The embedding therefore has
exactly the two reachable outcomes. -/
noncomputable def Foreoptics.get_numerical_aperture_run (self : Foreoptics) :
    Except String ℝ × Foreoptics :=
  (match self.a_in_max with
   | none => .error ("TypeError: np.radians applied to None")
   | some a_in_max => .ok (Real.sin (npRadians a_in_max)), self)

/-- `Foreoptics.get_geometric_etendue` (lines 349-364): asserts s then
a_in_max; g = pi * (s * sin(radians a_in_max)^2). -/
noncomputable def Foreoptics.get_geometric_etendue_run (self : Foreoptics) :
    Except String ℝ × Foreoptics :=
  (match self.s, self.a_in_max with
   | some s, some a_in_max =>
     .ok (Real.pi * (s * Real.sin (npRadians a_in_max) ^ 2))
   | none, _ => .error ("s is not set.")
   | _, none => .error ("a_in_max is not set."), self)

/-- `Foreoptics.get_radiant_flux` (lines 366-377): asserts b then g; f = b g. -/
noncomputable def Foreoptics.get_radiant_flux_run (self : Foreoptics) :
    Except String ℝ × Foreoptics :=
  (match self.b, self.g with
   | some b, some g => .ok (b * g)
   | none, _ => .error ("b is not set.")
   | _, none => .error ("g is not set."), self)

/-- `VPHGrism.get_angle_out` (lines 436-482): asserts a_in, n_1, n_2, n_3, m,
a, v, l in that order, then computes the k times m grid whose (i, j) entry is
`vphEntry` of the i-th incidence angle and j-th wavelength. -/
noncomputable def VPHGrism.get_angle_out_run (self : VPHGrism) :
    Except String (List (List ℝ)) × VPHGrism :=
  (match self.a_in, self.n_1, self.n_2, self.n_3, self.m, self.a, self.v, self.l with
   | some a_in, some n_1, some n_2, some n_3, some m, some a, some v, some l =>
     .ok (a_in.map fun ai => l.map fun lj => vphEntry ai lj n_1 n_2 n_3 m a v)
   | none, _, _, _, _, _, _, _ => .error ("a_in is not set.")
   | _, none, _, _, _, _, _, _ => .error ("n_1 is not set.")
   | _, _, none, _, _, _, _, _ => .error ("n_2 is not set.")
   | _, _, _, none, _, _, _, _ => .error ("n_3 is not set.")
   | _, _, _, _, none, _, _, _ => .error ("m is not set.")
   | _, _, _, _, _, none, _, _ => .error ("a is not set.")
   | _, _, _, _, _, _, none, _ => .error ("v is not set.")
   | _, _, _, _, _, _, _, none => .error ("l is not set."), self)

/-- `VPHGrism.get_resolvance` (lines 484-500): l and dl first (elementwise
l / dl, an array), else m and N (scalar m * N), else ValueError. -/
noncomputable def VPHGrism.get_resolvance_run (self : VPHGrism) :
    Except String (Sum ℝ (List ℝ)) × VPHGrism :=
  (match self.l, self.dl with
   | some l, some dl => .ok (.inr (l.map fun x => x / dl))
   | _, _ =>
     match self.m, self.N with
     | some m, some N => .ok (.inl (m * N))
     | _, _ => .error ("l and dl or m and N must be set."), self)

/-- `VPHGrism.get_resolution` (lines 502-518): l and R first (elementwise
l / R), else l, m and N (elementwise l / (m N)), else ValueError. -/
noncomputable def VPHGrism.get_resolution_run (self : VPHGrism) :
    Except String (List ℝ) × VPHGrism :=
  (match self.l, self.R with
   | some l, some R => .ok (l.map fun x => x / R)
   | _, _ =>
     match self.l, self.m, self.N with
     | some l, some m, some N => .ok (l.map fun x => x / (m * N))
     | _, _, _ => .error ("l and R or l and m and N must be set."), self)

/-- `ThinLens.get_image_distance` (lines 567-577): asserts f; d_i = f. -/
def ThinLens.get_image_distance_run (self : ThinLens) :
    Except String ℝ × ThinLens :=
  (match self.f with
   | some f => .ok f
   | none => .error ("f is not set."), self)

/-- `ThinLens.get_source_distance` (lines 579-589): asserts f; d_o = f. -/
def ThinLens.get_source_distance_run (self : ThinLens) :
    Except String ℝ × ThinLens :=
  (match self.f with
   | some f => .ok f
   | none => .error ("f is not set."), self)

/-- `ThinLens.get_image_height` (lines 591-611): asserts f then a_in; outer
product matmul(f, transpose(tan(radians a_in))), here in the scalar shape the
claims use: the 1 times 1 grid. -/
noncomputable def ThinLens.get_image_height_run (self : ThinLens) :
    Except String (List (List ℝ)) × ThinLens :=
  (match self.f, self.a_in with
   | some f, some a_in => .ok [[f * Real.tan (npRadians a_in)]]
   | none, _ => .error ("f is not set.")
   | _, none => .error ("a_in is not set."), self)

/-- `ThinLens.get_source_height` (lines 613-633): asserts f then a_out. -/
noncomputable def ThinLens.get_source_height_run (self : ThinLens) :
    Except String (List (List ℝ)) × ThinLens :=
  (match self.f, self.a_out with
   | some f, some a_out => .ok [[f * Real.tan (npRadians a_out)]]
   | none, _ => .error ("f is not set.")
   | _, none => .error ("a_out is not set."), self)

/-- `ThinLens.get_focal_length` (lines 635-669): priority chain d_i, then
d_o, then h_i with a_in, then h_o with a_out, else ValueError. -/
noncomputable def ThinLens.get_focal_length_run (self : ThinLens) :
    Except String ℝ × ThinLens :=
  (match self.d_i with
   | some d_i => .ok d_i
   | none =>
     match self.d_o with
     | some d_o => .ok d_o
     | none =>
       match self.h_i, self.a_in with
       | some h_i, some a_in => .ok (h_i / Real.tan (npRadians a_in))
       | _, _ =>
         match self.h_o, self.a_out with
         | some h_o, some a_out => .ok (h_o / Real.tan (npRadians a_out))
         | _, _ =>
           .error ("d_i or d_o or h_i and a_in or h_o and a_out must be set."), self)

/-- `AchromDoublet.focal_length_1` (lines 697-707): asserts V_1, V_2, f_eq;
f_1 = (f_eq * 10^-3) (V_1 - V_2) / V_1. -/
noncomputable def AchromDoublet.focal_length_1_run (self : AchromDoublet) :
    Except String ℝ × AchromDoublet :=
  (match self.V_1, self.V_2, self.f_eq with
   | some V_1, some V_2, some f_eq =>
     .ok (f_eq * (1 / 10 ^ 3) * (V_1 - V_2) / V_1)
   | none, _, _ => .error ("V_1 is not set.")
   | _, none, _ => .error ("V_2 is not set.")
   | _, _, none => .error ("f_eq is not set."), self)

/-- `AchromDoublet.focal_length_2` (lines 709-719). -/
noncomputable def AchromDoublet.focal_length_2_run (self : AchromDoublet) :
    Except String ℝ × AchromDoublet :=
  (match self.V_1, self.V_2, self.f_eq with
   | some V_1, some V_2, some f_eq =>
     .ok (-(f_eq * (1 / 10 ^ 3)) * (V_1 - V_2) / V_2)
   | none, _, _ => .error ("V_1 is not set.")
   | _, none, _ => .error ("V_2 is not set.")
   | _, _, none => .error ("f_eq is not set."), self)

/-- `AchromDoublet.effective_focal_length` (lines 721-735).  The source runs
`f_1 = self.f_1 * 10 ** -3` and `f_2 = self.f_2 * 10 ** -3` unconditionally
before the dispatch: a None in either field raises a TypeError there.  When
both conversions succeed `f_1` is a float, never None, so the first branch is
always taken (computing with `self.V_1` and `self.V_2`, a TypeError if either
is None) and both the `f_2` branch and the ValueError are unreachable. -/
noncomputable def AchromDoublet.effective_focal_length_run (self : AchromDoublet) :
    Except String ℝ × AchromDoublet :=
  (match self.f_1 with
   | none => .error ("TypeError: NoneType times int")
   | some f_1 =>
     match self.f_2 with
     | none => .error ("TypeError: NoneType times int")
     | some _ =>
       match self.V_1, self.V_2 with
       | some V_1, some V_2 => .ok (f_1 * (1 / 10 ^ 3) * V_1 / (V_1 - V_2))
       | _, _ => .error ("TypeError: NoneType in arithmetic"), self)

/-! ## Helper lemmas -/

lemma npRadians_zero : npRadians 0 = 0 := by
  simp [npRadians]

lemma npDegrees_neg_npRadians (x : ℝ) : npDegrees (-npRadians x) = -x := by
  have hpi := Real.pi_ne_zero
  simp only [npDegrees, npRadians]
  field_simp
  ring

lemma vphEntry_eq_specGrismChain (ai lj n1 n2 n3 m a v : ℝ) :
    vphEntry ai lj n1 n2 n3 m a v = specGrismChain ai lj n1 n2 n3 m a v := by
  simp only [vphEntry, specGrismChain, mul_assoc]

/-- With apex angle 0 and fringe frequency 0, the grid entry reduces to the
negation of the incidence angle, under non-total-internal-reflection bounds. -/
lemma vphEntry_zero_apex_zero_fringe (x lj n1 n2 n3 m : ℝ)
    (h1 : n1 ≠ 0) (h2 : n2 ≠ 0) (h3 : n3 ≠ 0)
    (hlo : -(Real.pi / 2) ≤ npRadians x) (hhi : npRadians x ≤ Real.pi / 2)
    (hd2 : |n1 * Real.sin (npRadians x) / n2| ≤ 1)
    (hd3 : |n1 * Real.sin (npRadians x) / n3| ≤ 1) :
    vphEntry x lj n1 n2 n3 m 0 0 = -x := by
  obtain ⟨hd2l, hd2r⟩ := abs_le.mp hd2
  obtain ⟨hd3l, hd3r⟩ := abs_le.mp hd3
  simp only [vphEntry, snell_angle_2, npRadians_zero, add_zero, zero_sub, sub_zero,
    zero_mul, mul_zero]
  rw [Real.sin_neg, Real.sin_arcsin hd2l hd2r]
  rw [show n2 * -(n1 * Real.sin (npRadians x) / n2) / n3
      = -(n1 * Real.sin (npRadians x) / n3) by field_simp; ring]
  rw [Real.arcsin_neg]
  rw [Real.arcsin_sin
    (by linarith [Real.arcsin_le_pi_div_two (n1 * Real.sin (npRadians x) / n3)])
    (by linarith [Real.neg_pi_div_two_le_arcsin (n1 * Real.sin (npRadians x) / n3)])]
  rw [Real.sin_neg, Real.sin_arcsin hd3l hd3r]
  rw [show n3 * -(n1 * Real.sin (npRadians x) / n3) / n2
      = -(n1 * Real.sin (npRadians x) / n2) by field_simp; ring]
  rw [Real.arcsin_neg]
  rw [Real.sin_neg, Real.sin_arcsin hd2l hd2r]
  rw [show n2 * -(n1 * Real.sin (npRadians x) / n2) / n1 = -Real.sin (npRadians x) by
    field_simp; ring]
  rw [show -Real.sin (npRadians x) = Real.sin (-npRadians x) from (Real.sin_neg _).symm]
  rw [Real.arcsin_sin (by linarith) (by linarith)]
  exact npDegrees_neg_npRadians x

/-! ## Claim theorems -/

/-- Claim C1: for every `VPHGrism` with `a_in`, `n_1`, `n_2`, `n_3`, `m`, `a`,
`v` and `l` set, `get_angle_out` computes exactly the fixed chain the spec
describes: add apex angle, refract n1 to n2, subtract from apex angle, refract
n2 to n3, grating equation sin t = sin t_prev - m v lambda, refract n3 to n2,
subtract apex angle, refract n2 to n1, add apex angle, with degrees-to-radians
at entry, radians-to-degrees at exit and nm-to-m on the wavelength. -/
theorem angle_out_follows_spec_chain (dv tv aout Rv lg dlv Nv : Option ℝ)
    (A L : List ℝ) (n1 n2 n3 m a v : ℝ) :
    VPHGrism.get_angle_out_run
        ⟨dv, tv, some A, aout, Rv, some L, lg, some a, some m, some n1, some n2,
         some n3, some v, dlv, Nv⟩
      = (.ok (A.map fun ai => L.map fun lj => specGrismChain ai lj n1 n2 n3 m a v),
         ⟨dv, tv, some A, aout, Rv, some L, lg, some a, some m, some n1, some n2,
          some n3, some v, dlv, Nv⟩) := by
  have hmap : (A.map fun ai => L.map fun lj => vphEntry ai lj n1 n2 n3 m a v)
      = A.map fun ai => L.map fun lj => specGrismChain ai lj n1 n2 n3 m a v := by
    refine List.map_congr_left fun ai _ => ?_
    exact List.map_congr_left fun lj _ => vphEntry_eq_specGrismChain ai lj n1 n2 n3 m a v
  simp only [VPHGrism.get_angle_out_run, hmap]

/-- Claim C2 (amended): at zero apex angle and zero fringe frequency the
outgoing angle equals the NEGATION of the incidence angle, for every
wavelength grid, provided the refraction chain stays in the
non-total-internal-reflection domain and the incidence angle lies in the
principal range of arcsin. -/
theorem angle_out_zero_apex_zero_fringe (A L : List ℝ) (n1 n2 n3 m : ℝ)
    (dv tv aout Rv lg dlv Nv : Option ℝ)
    (h1 : n1 ≠ 0) (h2 : n2 ≠ 0) (h3 : n3 ≠ 0)
    (hdom : ∀ x ∈ A, -(Real.pi / 2) ≤ npRadians x ∧ npRadians x ≤ Real.pi / 2 ∧
      |n1 * Real.sin (npRadians x) / n2| ≤ 1 ∧ |n1 * Real.sin (npRadians x) / n3| ≤ 1) :
    VPHGrism.get_angle_out_run
        ⟨dv, tv, some A, aout, Rv, some L, lg, some 0, some m, some n1, some n2,
         some n3, some 0, dlv, Nv⟩
      = (.ok (A.map fun x => L.map fun _ => -x),
         ⟨dv, tv, some A, aout, Rv, some L, lg, some 0, some m, some n1, some n2,
          some n3, some 0, dlv, Nv⟩) := by
  have hmap : (A.map fun ai => L.map fun lj => vphEntry ai lj n1 n2 n3 m 0 0)
      = A.map fun x => L.map fun _ => -x := by
    refine List.map_congr_left fun x hx => ?_
    obtain ⟨ha, hb, hc, hd⟩ := hdom x hx
    exact List.map_congr_left fun lj _ =>
      vphEntry_zero_apex_zero_fringe x lj n1 n2 n3 m h1 h2 h3 ha hb hc hd
  simp only [VPHGrism.get_angle_out_run, hmap]

/-- Witness for C2's amended theorem at a concrete grism: incidence 30 deg,
wavelength 500 nm, all indices 1, order 1, apex 0, fringe frequency 0. -/
theorem angle_out_zero_apex_zero_fringe_witness :
    VPHGrism.get_angle_out_run
        ⟨none, none, some [30], none, none, some [500], none, some 0, some 1, some 1,
         some 1, some 1, some 0, none, none⟩
      = (.ok [[(-30 : ℝ)]],
         ⟨none, none, some [(30 : ℝ)], none, none, some [(500 : ℝ)], none, some 0,
          some 1, some 1, some 1, some 1, some 0, none, none⟩) := by
  have hdom : ∀ x ∈ [(30 : ℝ)], -(Real.pi / 2) ≤ npRadians x ∧ npRadians x ≤ Real.pi / 2 ∧
      |(1 : ℝ) * Real.sin (npRadians x) / 1| ≤ 1 ∧
      |(1 : ℝ) * Real.sin (npRadians x) / 1| ≤ 1 := by
    intro x hx
    have hx30 : x = 30 := by simpa using hx
    subst hx30
    have hpi := Real.pi_pos
    refine ⟨by simp only [npRadians]; linarith, by simp only [npRadians]; linarith, ?_, ?_⟩ <;>
      simpa using Real.abs_sin_le_one (npRadians 30)
  have h := angle_out_zero_apex_zero_fringe [30] [500] 1 1 1 1
    none none none none none none none one_ne_zero one_ne_zero one_ne_zero hdom
  simpa using h

/-- Counterexample for C2 as stated: at incidence 30 deg with unit indices,
zero apex and zero fringe frequency, the computed outgoing angle is -30 deg,
not the incidence angle 30 deg. -/
theorem angle_out_pass_through_counterexample :
    (VPHGrism.get_angle_out_run
        { a_in := some [30], l := some [500], a := some 0, m := some 1, n_1 := some 1,
          n_2 := some 1, n_3 := some 1, v := some 0 }).1
      = .ok [[(-30 : ℝ)]] ∧ ((-30 : ℝ) ≠ 30) := by
  constructor
  · have h30 : vphEntry 30 500 1 1 1 1 0 0 = -30 := by
      have hpi := Real.pi_pos
      refine vphEntry_zero_apex_zero_fringe 30 500 1 1 1 1 one_ne_zero one_ne_zero
        one_ne_zero (by simp only [npRadians]; linarith) (by simp only [npRadians]; linarith)
        ?_ ?_ <;> simpa using Real.abs_sin_le_one (npRadians 30)
    show Except.ok [[vphEntry 30 500 1 1 1 1 0 0]] = .ok [[(-30 : ℝ)]]
    rw [h30]
  · norm_num

/-- Claim C7 (amended): the Snell refraction primitive round-trips, for every
incidence angle in the principal range of arcsin, nonzero indices and a
non-total-internal-reflection forward refraction. -/
theorem snell_round_trip (t n1 n2 : ℝ) (h1 : n1 ≠ 0) (h2 : n2 ≠ 0)
    (hlo : -(Real.pi / 2) ≤ t) (hhi : t ≤ Real.pi / 2)
    (hd : |n1 * Real.sin t / n2| ≤ 1) :
    snell_angle_2 (snell_angle_2 t n1 n2) n2 n1 = t := by
  obtain ⟨hl, hr⟩ := abs_le.mp hd
  simp only [snell_angle_2]
  rw [Real.sin_arcsin hl hr]
  rw [show n2 * (n1 * Real.sin t / n2) / n1 = Real.sin t by field_simp]
  exact Real.arcsin_sin hlo hhi

/-- Witness for C7's amended theorem at angle 0 between indices 1 and 2. -/
theorem snell_round_trip_witness : snell_angle_2 (snell_angle_2 0 1 2) 2 1 = 0 := by
  have hpi := Real.pi_pos
  refine snell_round_trip 0 1 2 one_ne_zero two_ne_zero (by linarith) (by linarith) ?_
  norm_num

/-- Counterexample for C7 as stated: the round-trip fails at incidence angle
pi (whose sine is 0, so the stated domain condition holds) because arcsin
returns the principal value 0, and it also fails inside the principal range
when an index of refraction is zero. -/
theorem snell_round_trip_counterexample :
    (snell_angle_2 (snell_angle_2 Real.pi 1 1) 1 1 = 0 ∧ (0 : ℝ) ≠ Real.pi)
    ∧ (snell_angle_2 (snell_angle_2 1 0 1) 1 0 = 0 ∧ (0 : ℝ) ≠ 1) := by
  refine ⟨⟨?_, ?_⟩, ⟨?_, ?_⟩⟩
  · simp [snell_angle_2, Real.sin_pi]
  · exact fun h => Real.pi_ne_zero h.symm
  · simp [snell_angle_2]
  · norm_num

/-- Claim C3: given k incidence angles and m wavelengths (and scalar values
for the remaining required parameters), `get_angle_out` returns a k times m
grid: the outer-product combination of the two vector inputs. -/
theorem angle_out_grid_shape (dv tv aout Rv lg dlv Nv : Option ℝ)
    (A L : List ℝ) (n1 n2 n3 m a v : ℝ) (g : List (List ℝ))
    (hg : (VPHGrism.get_angle_out_run
        ⟨dv, tv, some A, aout, Rv, some L, lg, some a, some m, some n1, some n2,
         some n3, some v, dlv, Nv⟩).1 = .ok g) :
    g.length = A.length ∧ ∀ r ∈ g, r.length = L.length := by
  simp only [VPHGrism.get_angle_out_run, Except.ok.injEq] at hg
  subst hg
  constructor
  · simp
  · intro r hr
    simp only [List.mem_map] at hr
    obtain ⟨ai, _, rfl⟩ := hr
    simp

/-- Witness for C3 at two incidence angles and one wavelength: a 2 by 1 grid. -/
theorem angle_out_grid_shape_witness :
    ([(10 : ℝ), 20].map fun ai => [(600 : ℝ)].map fun lj => vphEntry ai lj 1 1 1 1 1 1).length = 2
    ∧ ∀ r ∈ ([(10 : ℝ), 20].map fun ai => [(600 : ℝ)].map fun lj => vphEntry ai lj 1 1 1 1 1 1),
        r.length = 1 := by
  have h := angle_out_grid_shape none none none none none none none [10, 20] [600]
    1 1 1 1 1 1
    ([(10 : ℝ), 20].map fun ai => [(600 : ℝ)].map fun lj => vphEntry ai lj 1 1 1 1 1 1) rfl
  refine ⟨h.1.trans (by norm_num), fun r hr => (h.2 r hr).trans (by norm_num)⟩

/-- Claim C4 (amended): a missing required parameter fails naming that field
before any computation: a `ThickLens` with only `n` set fails `R1 is not
set.`; `VPHGrism.get_angle_out` requires exactly the EIGHT parameters `a_in`,
`n_1`, `n_2`, `n_3`, `m`, `a`, `v`, `l` (not nine) - each of the eight, when
missing alone, is named in the failure, and with just those eight set the
derivation succeeds. -/
theorem missing_parameter_failures :
    (∀ nv : ℝ, ThickLens.get_focal_length_run { n := some nv }
        = (.error ("R1 is not set."), { n := some nv }))
    ∧ (∀ (x2 x3 x4 x5 x6 x7 : ℝ) (L : List ℝ),
        (VPHGrism.get_angle_out_run
          { n_1 := some x2, n_2 := some x3, n_3 := some x4,
            m := some x5, a := some x6, v := some x7, l := some L }).1
          = .error ("a_in is not set."))
    ∧ (∀ (A : List ℝ) (x3 x4 x5 x6 x7 : ℝ) (L : List ℝ),
        (VPHGrism.get_angle_out_run
          { a_in := some A, n_2 := some x3, n_3 := some x4,
            m := some x5, a := some x6, v := some x7, l := some L }).1
          = .error ("n_1 is not set."))
    ∧ (∀ (A : List ℝ) (x2 x4 x5 x6 x7 : ℝ) (L : List ℝ),
        (VPHGrism.get_angle_out_run
          { a_in := some A, n_1 := some x2, n_3 := some x4,
            m := some x5, a := some x6, v := some x7, l := some L }).1
          = .error ("n_2 is not set."))
    ∧ (∀ (A : List ℝ) (x2 x3 x5 x6 x7 : ℝ) (L : List ℝ),
        (VPHGrism.get_angle_out_run
          { a_in := some A, n_1 := some x2, n_2 := some x3,
            m := some x5, a := some x6, v := some x7, l := some L }).1
          = .error ("n_3 is not set."))
    ∧ (∀ (A : List ℝ) (x2 x3 x4 x6 x7 : ℝ) (L : List ℝ),
        (VPHGrism.get_angle_out_run
          { a_in := some A, n_1 := some x2, n_2 := some x3,
            n_3 := some x4, a := some x6, v := some x7, l := some L }).1
          = .error ("m is not set."))
    ∧ (∀ (A : List ℝ) (x2 x3 x4 x5 x7 : ℝ) (L : List ℝ),
        (VPHGrism.get_angle_out_run
          { a_in := some A, n_1 := some x2, n_2 := some x3,
            n_3 := some x4, m := some x5, v := some x7, l := some L }).1
          = .error ("a is not set."))
    ∧ (∀ (A : List ℝ) (x2 x3 x4 x5 x6 : ℝ) (L : List ℝ),
        (VPHGrism.get_angle_out_run
          { a_in := some A, n_1 := some x2, n_2 := some x3,
            n_3 := some x4, m := some x5, a := some x6, l := some L }).1
          = .error ("v is not set."))
    ∧ (∀ (A : List ℝ) (x2 x3 x4 x5 x6 x7 : ℝ),
        (VPHGrism.get_angle_out_run
          { a_in := some A, n_1 := some x2, n_2 := some x3,
            n_3 := some x4, m := some x5, a := some x6, v := some x7 }).1
          = .error ("l is not set."))
    ∧ (∀ (A L : List ℝ) (n1 n2 n3 m a v : ℝ),
        (VPHGrism.get_angle_out_run
          { a_in := some A, n_1 := some n1, n_2 := some n2,
            n_3 := some n3, m := some m, a := some a, v := some v, l := some L }).1
          = .ok (A.map fun ai => L.map fun lj => vphEntry ai lj n1 n2 n3 m a v)) := by
  refine ⟨?_, ?_, ?_, ?_, ?_, ?_, ?_, ?_, ?_, ?_⟩ <;> intros <;> rfl

/-- Counterexample for C4 as stated: a `VPHGrism` with exactly the eight
parameters `a_in`, `n_1`, `n_2`, `n_3`, `m`, `a`, `v`, `l` set and every
other field absent succeeds, so there is no ninth required parameter. -/
theorem angle_out_eight_params_suffice :
    (VPHGrism.get_angle_out_run
        { a_in := some [10], n_1 := some 1, n_2 := some 1.5,
          n_3 := some 1.2, m := some 1, a := some 30, v := some 600, l := some [600] }).1
      = .ok [[vphEntry 10 600 1 1.5 1.2 1 30 600]] := rfl

/-- Claim C5: `ThinLens.get_focal_length` tries exactly the four alternatives
d_i; d_o; h_i with a_in; h_o with a_out, in that priority order, the first
fully-present one determining the result, and raises the no-valid-alternative
failure naming all four sets when none is present. -/
theorem thinlens_focal_length_alternatives :
    (∀ (Dv Mv aI aO dO fv hI hO : Option ℝ) (x : ℝ),
      ThinLens.get_focal_length_run ⟨Dv, Mv, aI, aO, some x, dO, fv, hI, hO⟩
        = (.ok x, ⟨Dv, Mv, aI, aO, some x, dO, fv, hI, hO⟩))
    ∧ (∀ (Dv Mv aI aO fv hI hO : Option ℝ) (y : ℝ),
      ThinLens.get_focal_length_run ⟨Dv, Mv, aI, aO, none, some y, fv, hI, hO⟩
        = (.ok y, ⟨Dv, Mv, aI, aO, none, some y, fv, hI, hO⟩))
    ∧ (∀ (Dv Mv aO fv hO : Option ℝ) (hv tv : ℝ),
      ThinLens.get_focal_length_run ⟨Dv, Mv, some tv, aO, none, none, fv, some hv, hO⟩
        = (.ok (hv / Real.tan (npRadians tv)),
           ⟨Dv, Mv, some tv, aO, none, none, fv, some hv, hO⟩))
    ∧ (∀ (Dv Mv aI fv : Option ℝ) (hv tv : ℝ),
      ThinLens.get_focal_length_run ⟨Dv, Mv, aI, some tv, none, none, fv, none, some hv⟩
        = (.ok (hv / Real.tan (npRadians tv)),
           ⟨Dv, Mv, aI, some tv, none, none, fv, none, some hv⟩))
    ∧ (∀ (Dv Mv aI aO fv hI hO : Option ℝ),
      (hI = none ∨ aI = none) → (hO = none ∨ aO = none) →
      ThinLens.get_focal_length_run ⟨Dv, Mv, aI, aO, none, none, fv, hI, hO⟩
        = (.error ("d_i or d_o or h_i and a_in or h_o and a_out must be set."),
           ⟨Dv, Mv, aI, aO, none, none, fv, hI, hO⟩)) := by
  refine ⟨fun Dv Mv aI aO dO fv hI hO x => rfl, fun Dv Mv aI aO fv hI hO y => rfl,
    fun Dv Mv aO fv hO hv tv => rfl, fun Dv Mv aI fv hv tv => rfl, ?_⟩
  intro Dv Mv aI aO fv hI hO hGridI hGridO
  rcases hGridI with rfl | rfl
  · rcases hGridO with rfl | rfl
    · rfl
    · cases hO <;> rfl
  · rcases hGridO with rfl | rfl
    · cases hI <;> rfl
    · cases hI <;> cases hO <;> rfl

/-- Witness for C5 at a lens with every parameter absent: the
no-valid-alternative failure naming the four sets. -/
theorem thinlens_focal_length_alternatives_witness :
    ThinLens.get_focal_length_run ⟨none, none, none, none, none, none, none, none, none⟩
      = (.error ("d_i or d_o or h_i and a_in or h_o and a_out must be set."),
         ⟨none, none, none, none, none, none, none, none, none⟩) :=
  thinlens_focal_length_alternatives.2.2.2.2 none none none none none none none
    (Or.inl rfl) (Or.inl rfl)

/-- Claim C6 (code bug): `Foreoptics.get_numerical_aperture` with `a_in_max`
absent fails with a TypeError from `np.radians(None)` before its alternative
dispatch is reached - even when `n` alone is set it does not return
1 / (2 n), and the ValueError naming the alternatives is unreachable;
`AchromDoublet.effective_focal_length` with `f_1` (or `f_2`) absent likewise
fails with a TypeError from `None * 10 ** -3` and never reaches its
ValueError. -/
theorem dead_alternative_dispatch_type_errors :
    (Foreoptics.get_numerical_aperture_run {}).1
      = .error ("TypeError: np.radians applied to None")
    ∧ (Foreoptics.get_numerical_aperture_run { n := some 2 }).1
      = .error ("TypeError: np.radians applied to None")
    ∧ (Foreoptics.get_numerical_aperture_run { n := some 2 }).1
      ≠ .error ("a_in_max or n must be set.")
    ∧ (Foreoptics.get_numerical_aperture_run { n := some 2 }).1 ≠ .ok (1 / (2 * 2))
    ∧ (AchromDoublet.effective_focal_length_run {}).1
      = .error ("TypeError: NoneType times int")
    ∧ (AchromDoublet.effective_focal_length_run {}).1
      ≠ .error ("f_1 or f_2 must be set.")
    ∧ (AchromDoublet.effective_focal_length_run { f_1 := some 100 }).1
      = .error ("TypeError: NoneType times int") := by
  refine ⟨rfl, rfl, ?_, ?_, rfl, ?_, rfl⟩
  · intro h
    simp only [Foreoptics.get_numerical_aperture_run, Except.error.injEq] at h
    exact absurd h (by decide)
  · intro h
    exact Except.noConfusion h
  · intro h
    simp only [AchromDoublet.effective_focal_length_run, Except.error.injEq] at h
    exact absurd h (by decide)

/-- Claim C8: `Foreoptics.get_f_number` returns 1 / (2 na) when the numerical
aperture is set (0.1 yields 5), otherwise ds_i / dm_a (50 and 10 yield 5),
and the two paths agree whenever na = dm_a / (2 ds_i). -/
theorem foreoptics_f_number_paths :
    Foreoptics.get_f_number_run { na := some 0.1 } = (.ok 5, { na := some 0.1 })
    ∧ Foreoptics.get_f_number_run { ds_i := some 50, dm_a := some 10 }
        = (.ok 5, { ds_i := some 50, dm_a := some 10 })
    ∧ ∀ dsi dma : ℝ,
        (Foreoptics.get_f_number_run { na := some (dma / (2 * dsi)) }).1
          = (Foreoptics.get_f_number_run { ds_i := some dsi, dm_a := some dma }).1 := by
  refine ⟨?_, ?_, ?_⟩
  · have h5 : (1 : ℝ) / (2 * 0.1) = 5 := by norm_num
    simp only [Foreoptics.get_f_number_run, h5]
  · have h5 : (50 : ℝ) / 10 = 5 := by norm_num
    simp only [Foreoptics.get_f_number_run, h5]
  · intro dsi dma
    simp only [Foreoptics.get_f_number_run, Except.ok.injEq]
    have h2 : (2 : ℝ) * (dma / (2 * dsi)) = dma / dsi := by
      rcases eq_or_ne dsi 0 with rfl | h
      · simp
      · field_simp
        ring
    rw [h2, one_div_div]

/-- Claim C9: every derivation method on every component reads but never
writes the instance state: the post-state of every call equals the pre-state,
so repeated calls in any order return equal results. -/
theorem derivation_methods_preserve_state :
    (∀ s : ThickLens, (ThickLens.get_focal_length_run s).2 = s)
    ∧ (∀ s : ThickLens, (ThickLens.get_principal_planes_run s).2 = s)
    ∧ (∀ s : ThickLens, (ThickLens.get_focuser_image_distance_run s).2 = s)
    ∧ (∀ s : ThickLens, (ThickLens.get_collimator_object_distance_run s).2 = s)
    ∧ (∀ s : ThickLens, (ThickLens.get_focuser_image_height_run s).2 = s)
    ∧ (∀ s : ThickLens, (ThickLens.get_collimator_emergent_ray_angle_run s).2 = s)
    ∧ (∀ s : Slit, (Slit.get_horizontal_field_of_view_run s).2 = s)
    ∧ (∀ s : Slit, (Slit.get_vertical_field_of_view_run s).2 = s)
    ∧ (∀ s : Slit, (Slit.get_image_width_run s).2 = s)
    ∧ (∀ s : Slit, (Slit.get_slit_width_run s).2 = s)
    ∧ (∀ s : Foreoptics, (Foreoptics.get_aperture_diameter_run s).2 = s)
    ∧ (∀ s : Foreoptics, (Foreoptics.get_magnification_run s).2 = s)
    ∧ (∀ s : Foreoptics, (Foreoptics.get_f_number_run s).2 = s)
    ∧ (∀ s : Foreoptics, (Foreoptics.get_effective_focal_length_run s).2 = s)
    ∧ (∀ s : Foreoptics, (Foreoptics.get_numerical_aperture_run s).2 = s)
    ∧ (∀ s : Foreoptics, (Foreoptics.get_geometric_etendue_run s).2 = s)
    ∧ (∀ s : Foreoptics, (Foreoptics.get_radiant_flux_run s).2 = s)
    ∧ (∀ s : VPHGrism, (VPHGrism.get_angle_out_run s).2 = s)
    ∧ (∀ s : VPHGrism, (VPHGrism.get_resolvance_run s).2 = s)
    ∧ (∀ s : VPHGrism, (VPHGrism.get_resolution_run s).2 = s)
    ∧ (∀ s : ThinLens, (ThinLens.get_image_distance_run s).2 = s)
    ∧ (∀ s : ThinLens, (ThinLens.get_source_distance_run s).2 = s)
    ∧ (∀ s : ThinLens, (ThinLens.get_image_height_run s).2 = s)
    ∧ (∀ s : ThinLens, (ThinLens.get_source_height_run s).2 = s)
    ∧ (∀ s : ThinLens, (ThinLens.get_focal_length_run s).2 = s)
    ∧ (∀ s : AchromDoublet, (AchromDoublet.focal_length_1_run s).2 = s)
    ∧ (∀ s : AchromDoublet, (AchromDoublet.focal_length_2_run s).2 = s)
    ∧ (∀ s : AchromDoublet, (AchromDoublet.effective_focal_length_run s).2 = s) := by
  refine ⟨?_, ?_, ?_, ?_, ?_, ?_, ?_, ?_, ?_, ?_, ?_, ?_, ?_, ?_, ?_, ?_, ?_, ?_, ?_,
    ?_, ?_, ?_, ?_, ?_, ?_, ?_, ?_, ?_⟩ <;> exact fun _ => rfl

/-- Claim C10: `Foreoptics.get_effective_focal_length` returns
(ds_o + ds_i) / (ds_o ds_i), the reciprocal of the Gaussian effective focal
length ds_o ds_i / (ds_o + ds_i); at ds_i = ds_o = 50 it returns 0.04, not 25. -/
theorem foreoptics_effective_focal_length_reciprocal :
    (∀ (dsi dso : ℝ) (nv dma am nav bv gv sv : Option ℝ),
      Foreoptics.get_effective_focal_length_run ⟨some dsi, some dso, nv, dma, am, nav, bv, gv, sv⟩
        = (.ok ((dso + dsi) / (dso * dsi)),
           ⟨some dsi, some dso, nv, dma, am, nav, bv, gv, sv⟩))
    ∧ (Foreoptics.get_effective_focal_length_run
        { ds_i := some 50, ds_o := some 50 }).1 = .ok 0.04
    ∧ (0.04 : ℝ) ≠ 25
    ∧ ∀ dsi dso : ℝ, (dso + dsi) / (dso * dsi) = ((dso * dsi) / (dso + dsi))⁻¹ := by
  refine ⟨fun dsi dso nv dma am nav bv gv sv => rfl, ?_, by norm_num,
    fun dsi dso => (inv_div _ _).symm⟩
  simp only [Foreoptics.get_effective_focal_length_run, Except.ok.injEq]
  norm_num
